import Mathlib

/-
Verification development for `src/modules/video_coding/main/source/frame_buffer.cc`
(`webrtc::VCMFrameBuffer`), the frame-assembly state machine of the video
jitter buffer.  Field widths of the entity and of the packet are declared in
headers outside the sources at hand; per the spec they are plain sizes and
counters and are modelled as unbounded naturals, while the unsigned 32-bit
locals that `frame_buffer.cc` itself declares are reduced modulo `2 ^ 32`.

Shallow embedding conventions:
* The class declarations (`frame_buffer.h`, `encoded_frame.h`, `packet.h`,
  `session_info.h`, the constant header) are not part of the sources at hand;
  their fields and the consumed collaborator operations are modelled from the
  specification (marked `Modelled from the spec:` below).  Everything the
  `.cc` file itself does is translated statement by statement.
* Unsigned 32-bit locals that the `.cc` file declares itself
  (`requiredSizeBytes`, `increments`, `newSize`, the `static_cast` on the
  session insertion result) are computed modulo `2 ^ 32` via `mod32`.
* The packet-list bookkeeping delegate (`_sessionInfo`) and the allocator are
  external; their answers for the single call being analysed are supplied by a
  `VCMSessionInfoOracle` record.
-/

set_option autoImplicit false

/-- The lifecycle states of a frame buffer (`VCMFrameBufferStateEnum`). -/
inductive VCMFrameBufferStateEnum
  | kStateFree
  | kStateEmpty
  | kStateIncomplete
  | kStateComplete
  | kStateDecodable
  | kStateDecoding
deriving DecidableEq, Repr

open VCMFrameBufferStateEnum

/-- The result codes `VCMFrameBuffer::InsertPacket` can return
(the members of `VCMFrameBufferEnum` used by `frame_buffer.cc`). -/
inductive VCMFrameBufferEnum
  | kStateError
  | kTimeStampError
  | kSizeError
  | kDuplicatePacket
  | kCompleteSession
  | kIncomplete
deriving DecidableEq, Repr

open VCMFrameBufferEnum

/-- Frame-type tag of a packet (`webrtc::FrameType`): `kFrameEmpty` is the
control/padding tag, the others carry media. -/
inductive FrameTypeTag
  | kFrameEmpty
  | kVideoFrameKey
  | kVideoFrameDelta
deriving DecidableEq, Repr

open FrameTypeTag

/-- Modelled from the spec: the caller-supplied packet (`VCMPacket`, whose
declaration is outside the sources at hand).  `dataPtr = none` models a NULL
payload pointer; `some bytes` models a non-NULL pointer to the payload. -/
structure VCMPacket where
  seqNum : Nat
  timestamp : Nat
  payloadType : Nat
  frameType : FrameTypeTag
  sizeBytes : Nat
  dataPtr : Option (List Nat)
  insertStartCode : Bool
  codec : Nat
deriving DecidableEq, Repr

/-- Modelled from the spec: the contract constants (`kMaxJBFrameSizeBytes`,
`kBufferIncStepSizeBytes`, `kH264StartCodeLengthBytes`) live in a header that
is outside the sources at hand; per the spec they are configuration, so they
are carried explicitly. -/
structure VCMConfig where
  kMaxJBFrameSizeBytes : Nat
  kBufferIncStepSizeBytes : Nat
  kH264StartCodeLengthBytes : Nat
deriving DecidableEq, Repr

/-- The frame buffer entity: the `VCMFrameBuffer` fields assigned by
`frame_buffer.cc` together with the `VCMEncodedFrame` base fields it reaches
into (`_buffer`/`_size`/`_length`/`_timeStamp`/`_payloadType`/`_codec` and the
metadata written by `RestructureFrameInformation`/`ExtractFromStorage`).
`size` is the allocated capacity, `length` the occupied byte count. -/
structure VCMFrameBuffer where
  state : VCMFrameBufferStateEnum
  frameCounted : Bool
  nackCount : Nat
  latestPacketTimeMs : Int
  buffer : List Nat
  size : Nat
  length : Nat
  timeStamp : Nat
  payloadType : Nat
  codec : Nat
  frameType : Nat
  completeFrame : Bool
  missingFrame : Bool
  encodedWidth : Nat
  encodedHeight : Nat
  renderTimeMs : Int
deriving DecidableEq, Repr

/-- Modelled from the spec: the answers of the external collaborators for the
single call under analysis — the packet-list delegate (`_sessionInfo`) and the
allocator.  `insertResult` is `_sessionInfo.InsertPacket`'s return value
(bytes written, `-1` for allocation/size failure, `-2` for duplicate);
`bufferAfterInsert` is the buffer content after the delegate wrote the packet
bytes; `isSessionComplete` is `_sessionInfo.IsSessionComplete()` after the
insertion; `allocOk` is whether raw allocation succeeds; the remaining fields
serve `PrepareForDecode`/`RestructureFrameInformation`. -/
structure VCMSessionInfoOracle where
  insertResult : Int
  bufferAfterInsert : List Nat
  isSessionComplete : Bool
  allocOk : Bool
  prepareLength : Nat
  bufferAfterPrepare : List Nat
  sessionFrameType : Nat
  previousFrameLoss : Bool
deriving DecidableEq, Repr

/-- Reduction modulo `2 ^ 32`, the semantics of the `WebRtc_UWord32` locals
declared in `frame_buffer.cc`. -/
def mod32 (n : Nat) : Nat := n % 2 ^ 32

/-- `VCM_OK`, the success code of `ExtractFromStorage`. -/
def VCM_OK : Int := 0

/-- Modelled from the spec: `VCM_MEMORY`, the out-of-memory condition code
returned by `ExtractFromStorage`; its numeric value is declared outside the
sources at hand, only its distinctness from `VCM_OK` matters here. -/
def VCM_MEMORY : Int := -6

/-- Modelled from the spec: `VCMEncodedFrame::VerifyAndAllocate` (base class,
outside the sources at hand).  Per §4.3/§4.6/§6 it grows the capacity to
exactly the requested minimum when the current capacity is smaller, preserving
previously written bytes (copy-extend), and reports failure only when raw
allocation fails (`none` models the `-1`/negative status). -/
def VerifyAndAllocate (fb : VCMFrameBuffer) (minimumSize : Nat) (allocOk : Bool) :
    Option VCMFrameBuffer :=
  if allocOk = false then none
  else if fb.size < minimumSize then some { fb with size := minimumSize }
  else some fb

/-- `VCMFrameBuffer::Reset` (frame_buffer.cc lines 243-255): clears length,
timestamp, counted flag, payload type, nack count, arrival time, state, and
resets the collaborator and the base.  The base-class part
(`VCMEncodedFrame::Reset`) is outside the sources at hand and is modelled from
the spec: metadata cleared to defaults and the backing allocation released
(§3: the buffer "never shrinks, except on full reset"). -/
def Reset (_fb : VCMFrameBuffer) : VCMFrameBuffer :=
  { state := kStateFree
    frameCounted := false
    nackCount := 0
    latestPacketTimeMs := -1
    buffer := []
    size := 0
    length := 0
    timeStamp := 0
    payloadType := 0
    codec := 0
    frameType := 0
    completeFrame := false
    missingFrame := false
    encodedWidth := 0
    encodedHeight := 0
    renderTimeMs := 0 }

/-- Modelled from the spec: `VCMFrameBuffer::ConvertFrameType` maps the
packet-list tag space to the encoded-frame tag space; its definition is
outside the sources at hand and it is treated as the identity on tags. -/
def ConvertFrameType (t : Nat) : Nat := t

/-- `VCMFrameBuffer::RestructureFrameInformation` (lines 332-339):
`PrepareForDecode` sets `_length` (and may compact the buffer through the
delegate), then the frame type, completeness and missing-frame flags are
copied from the delegate. -/
def RestructureFrameInformation (fb : VCMFrameBuffer) (o : VCMSessionInfoOracle) :
    VCMFrameBuffer :=
  { fb with
    buffer := o.bufferAfterPrepare
    length := o.prepareLength
    frameType := ConvertFrameType o.sessionFrameType
    completeFrame := o.isSessionComplete
    missingFrame := o.previousFrameLoss }

/-- The debug-build assertion evaluated by `VCMFrameBuffer::SetState` for a
requested target state: `true` iff no assert fires.  The `cur = target` case
returns before any assert, and a `kStateDecodable` request on a
`kStateComplete` frame returns before its assert (lines 270-328). -/
def setStateAssertOk (cur target : VCMFrameBufferStateEnum) : Bool :=
  if cur = target then true
  else
    match target with
    | kStateFree => true
    | kStateIncomplete => cur = kStateEmpty || cur = kStateDecoding
    | kStateComplete => cur = kStateEmpty || cur = kStateIncomplete || cur = kStateDecodable
    | kStateEmpty => cur = kStateFree
    | kStateDecoding => cur = kStateComplete || cur = kStateIncomplete || cur = kStateDecodable
    | kStateDecodable =>
        if cur = kStateComplete then true
        else cur = kStateEmpty || cur = kStateIncomplete

/-- `VCMFrameBuffer::SetState` (lines 266-330), release-build semantics: the
asserts are compiled out (they are tracked separately by `setStateAssertOk`).
Equal-state requests return early; `kStateFree` runs `Reset`; a
`kStateDecodable` request on a `kStateComplete` frame returns early; the
`kStateDecoding` arm runs `RestructureFrameInformation`; every arm that
reaches the end of the switch falls through to the `_state = state`
assignment.  (The `default` arm is unreachable for the closed enum.) -/
def SetState (fb : VCMFrameBuffer) (st : VCMFrameBufferStateEnum)
    (o : VCMSessionInfoOracle) : VCMFrameBuffer :=
  if fb.state = st then fb
  else
    match st with
    | kStateFree => { Reset fb with state := kStateFree }
    | kStateIncomplete => { fb with state := st }
    | kStateComplete => { fb with state := st }
    | kStateEmpty => { fb with state := st }
    | kStateDecoding => { RestructureFrameInformation fb o with state := st }
    | kStateDecodable =>
        if fb.state = kStateComplete then fb
        else { fb with state := st }

/-- The optional start-code length added to size projections
(`packet.insertStartCode ? kH264StartCodeLengthBytes : 0`). -/
def startCodeLen (cfg : VCMConfig) (p : VCMPacket) : Nat :=
  if p.insertStartCode then cfg.kH264StartCodeLengthBytes else 0

/-- Lines 115-136 of `InsertPacket`: latch the payload type when the packet
carries data, and on the first packet of an `kStateEmpty` frame latch the
timestamp and codec, moving to `kStateIncomplete` when the packet carries
media.  (The `SetStartSeqNumber` latch of lines 115-119 lives entirely inside
the packet-list delegate and has no field of this entity to record.) -/
def insertLatch (fb : VCMFrameBuffer) (p : VCMPacket) (o : VCMSessionInfoOracle) :
    VCMFrameBuffer :=
  let fb1 := if p.dataPtr ≠ none then { fb with payloadType := p.payloadType } else fb
  if fb1.state = kStateEmpty then
    let fbA := { fb1 with timeStamp := p.timestamp, codec := p.codec }
    if p.frameType ≠ kFrameEmpty then SetState fbA kStateIncomplete o else fbA
  else fb1

/-- Line 138: `requiredSizeBytes`, a `WebRtc_UWord32` local. -/
def requiredSize (cfg : VCMConfig) (fb : VCMFrameBuffer) (p : VCMPacket) : Nat :=
  mod32 (fb.length + p.sizeBytes + startCodeLen cfg p)

/-- Lines 142-145: `increments`, the ceiling-division step count. -/
def growthIncrements (cfg : VCMConfig) (r : Nat) : Nat :=
  r / cfg.kBufferIncStepSizeBytes +
    (if r % cfg.kBufferIncStepSizeBytes > 0 then 1 else 0)

/-- Lines 146-147: `newSize`, a `WebRtc_UWord32` local. -/
def growthNewSize (cfg : VCMConfig) (fb : VCMFrameBuffer) (r : Nat) : Nat :=
  mod32 (fb.size + mod32 (growthIncrements cfg r * cfg.kBufferIncStepSizeBytes))

/-- Lines 138-156 of `InsertPacket`: the growth step.  `none` models the two
`return kSizeError` exits (new size above the hard maximum, or
`VerifyAndAllocate` failure). -/
def insertGrow (cfg : VCMConfig) (fb : VCMFrameBuffer) (p : VCMPacket)
    (allocOk : Bool) : Option VCMFrameBuffer :=
  let r := requiredSize cfg fb p
  if r ≥ fb.size then
    let newSize := growthNewSize cfg fb r
    if newSize > cfg.kMaxJBFrameSizeBytes then none
    else VerifyAndAllocate fb newSize allocOk
  else some fb

/-- Lines 157-185 of `InsertPacket`: delegate the byte insertion to the
packet-list collaborator, map `-1`/`-2` to `kSizeError`/`kDuplicatePacket`,
advance the length (a `static_cast<WebRtc_UWord32>` on the 64-bit result),
stamp the arrival time, and resolve the result from the completeness
re-evaluation, retreating a `kStateComplete` frame to `kStateIncomplete`. -/
def insertSessionTail (fb : VCMFrameBuffer) (timeInMs : Int)
    (o : VCMSessionInfoOracle) : VCMFrameBufferEnum × VCMFrameBuffer :=
  if o.insertResult = -1 then (kSizeError, fb)
  else if o.insertResult = -2 then (kDuplicatePacket, fb)
  else
    let fb4 :=
      { fb with
        buffer := o.bufferAfterInsert
        length := mod32 (fb.length + (o.insertResult % (2 ^ 32 : Int)).toNat)
        latestPacketTimeMs := timeInMs }
    if o.isSessionComplete then (kCompleteSession, fb4)
    else if fb4.state = kStateComplete then
      (kIncomplete, { fb4 with state := kStateIncomplete })
    else (kIncomplete, fb4)

/-- `VCMFrameBuffer::InsertPacket` (lines 82-186): the guard cascade
(decoding / free / timestamp / projected size / NULL data), the latching side
effects, the growth step, and the session tail.  The pair returned is
(result code, the entity after the call). -/
def InsertPacket (cfg : VCMConfig) (fb : VCMFrameBuffer) (p : VCMPacket)
    (timeInMs : Int) (o : VCMSessionInfoOracle) :
    VCMFrameBufferEnum × VCMFrameBuffer :=
  if fb.state = kStateDecoding then (kIncomplete, fb)
  else if fb.state = kStateFree then (kStateError, fb)
  else if fb.timeStamp ≠ 0 ∧ fb.timeStamp ≠ p.timestamp then (kTimeStampError, fb)
  else if fb.size + p.sizeBytes + startCodeLen cfg p > cfg.kMaxJBFrameSizeBytes then
    (kSizeError, fb)
  else if p.dataPtr = none ∧ p.sizeBytes > 0 then (kSizeError, fb)
  else
    let fb2 := insertLatch fb p o
    match insertGrow cfg fb2 p o.allocOk with
    | none => (kSizeError, fb2)
    | some fb3 => insertSessionTail fb3 timeInMs o

/-- Modelled from the spec: `EncodedVideoData`, the stored-frame record
consumed by `ExtractFromStorage` (declaration outside the sources at hand). -/
structure EncodedVideoData where
  frameType : Nat
  timeStamp : Nat
  payloadType : Nat
  encodedWidth : Nat
  encodedHeight : Nat
  missingFrame : Bool
  completeFrame : Bool
  renderTimeMs : Int
  codec : Nat
  payloadSize : Nat
  payloadData : List Nat
deriving DecidableEq, Repr

/-- `VCMFrameBuffer::ExtractFromStorage` (lines 341-360): copy the metadata
fields, grow the buffer to the exact stored payload size, then `memcpy` the
payload and set the length.  A `VerifyAndAllocate` failure returns
`VCM_MEMORY` (the metadata writes have already happened). -/
def ExtractFromStorage (fb : VCMFrameBuffer) (d : EncodedVideoData)
    (allocOk : Bool) : Int × VCMFrameBuffer :=
  let fb1 :=
    { fb with
      frameType := ConvertFrameType d.frameType
      timeStamp := d.timeStamp
      payloadType := d.payloadType
      encodedWidth := d.encodedWidth
      encodedHeight := d.encodedHeight
      missingFrame := d.missingFrame
      completeFrame := d.completeFrame
      renderTimeMs := d.renderTimeMs
      codec := d.codec }
  match VerifyAndAllocate fb1 d.payloadSize allocOk with
  | none => (VCM_MEMORY, fb1)
  | some fb2 =>
      (VCM_OK,
        { fb2 with
          buffer := d.payloadData.take d.payloadSize ++ fb2.buffer.drop d.payloadSize
          length := d.payloadSize })

/-- `VCMFrameBuffer::IncrementNackCount` (lines 218-222). -/
def IncrementNackCount (fb : VCMFrameBuffer) : VCMFrameBuffer :=
  { fb with nackCount := fb.nackCount + 1 }

/-- A blank frame entity, as produced by the constructor followed by `Reset`:
used as the base of the concrete test inputs below. -/
def frame0 : VCMFrameBuffer :=
  { state := kStateFree
    frameCounted := false
    nackCount := 0
    latestPacketTimeMs := -1
    buffer := []
    size := 0
    length := 0
    timeStamp := 0
    payloadType := 0
    codec := 0
    frameType := 0
    completeFrame := false
    missingFrame := false
    encodedWidth := 0
    encodedHeight := 0
    renderTimeMs := 0 }

/-- A neutral collaborator oracle, overridden field-wise in the concrete
inputs below. -/
def oracle0 : VCMSessionInfoOracle :=
  { insertResult := 0
    bufferAfterInsert := []
    isSessionComplete := false
    allocOk := true
    prepareLength := 0
    bufferAfterPrepare := []
    sessionFrameType := 0
    previousFrameLoss := false }

/-- The real deployment constants (4 MB ceiling, 30 kB step, 4-byte H.264
start code), used for concrete evaluations. -/
def cfg0 : VCMConfig :=
  { kMaxJBFrameSizeBytes := 4000000
    kBufferIncStepSizeBytes := 30000
    kH264StartCodeLengthBytes := 4 }

/-! ### Helper lemmas about the embedded operations -/

theorem mod32_eq_of_lt {n : Nat} (h : n < 2 ^ 32) : mod32 n = n :=
  Nat.mod_eq_of_lt h

/-- The `increments` expression of lines 142-145 is the ceiling division of
the required size by the step size. -/
theorem div_ceil_eq (a b : Nat) (hb : 0 < b) :
    a / b + (if a % b > 0 then 1 else 0) = (a + b - 1) / b := by
  obtain ⟨q, r, hr, rfl⟩ : ∃ q r, r < b ∧ a = b * q + r :=
    ⟨a / b, a % b, Nat.mod_lt a hb, (Nat.div_add_mod a b).symm⟩
  rw [Nat.mul_add_div hb, Nat.mul_add_mod, Nat.div_eq_of_lt hr, Nat.mod_eq_of_lt hr]
  rcases Nat.eq_zero_or_pos r with hrz | hrp
  · subst hrz
    have h1 : b * q + 0 + b - 1 = b * q + (b - 1) := by
      rw [Nat.add_zero, Nat.add_sub_assoc hb]
    rw [h1, Nat.mul_add_div hb, Nat.div_eq_of_lt (Nat.sub_lt hb Nat.one_pos)]
    simp
  · have h0 : r + b - 1 = b + (r - 1) := by omega
    have h1 : b * q + r + b - 1 = b * (q + 1) + (r - 1) := by
      rw [Nat.add_assoc, Nat.add_sub_assoc (by omega : 1 ≤ r + b), h0,
        Nat.mul_add, Nat.mul_one, ← Nat.add_assoc]
    rw [h1, Nat.mul_add_div hb, Nat.div_eq_of_lt (by omega)]
    simp [hrp]

theorem insertLatch_length (fb : VCMFrameBuffer) (p : VCMPacket)
    (o : VCMSessionInfoOracle) : (insertLatch fb p o).length = fb.length := by
  unfold insertLatch SetState
  dsimp only
  split_ifs <;> rfl

theorem insertLatch_size (fb : VCMFrameBuffer) (p : VCMPacket)
    (o : VCMSessionInfoOracle) : (insertLatch fb p o).size = fb.size := by
  unfold insertLatch SetState
  dsimp only
  split_ifs <;> rfl

theorem insertLatch_buffer (fb : VCMFrameBuffer) (p : VCMPacket)
    (o : VCMSessionInfoOracle) : (insertLatch fb p o).buffer = fb.buffer := by
  unfold insertLatch SetState
  dsimp only
  split_ifs <;> rfl

theorem insertLatch_state (fb : VCMFrameBuffer) (p : VCMPacket)
    (o : VCMSessionInfoOracle) :
    (insertLatch fb p o).state = fb.state ∨
      (fb.state = kStateEmpty ∧ (insertLatch fb p o).state = kStateIncomplete) := by
  unfold insertLatch SetState
  dsimp only
  split_ifs with h1 h2 h3 h4 <;> simp_all

theorem verifyAndAllocate_some (fb : VCMFrameBuffer) (m : Nat) (a : Bool)
    (fb' : VCMFrameBuffer) (h : VerifyAndAllocate fb m a = some fb') :
    fb'.state = fb.state ∧ fb'.length = fb.length ∧ fb'.buffer = fb.buffer := by
  unfold VerifyAndAllocate at h
  by_cases ha : a = false
  · rw [if_pos ha] at h
    exact absurd h (by simp)
  · rw [if_neg ha] at h
    by_cases h2 : fb.size < m
    · rw [if_pos h2, Option.some.injEq] at h
      rw [← h]
      exact ⟨rfl, rfl, rfl⟩
    · rw [if_neg h2, Option.some.injEq] at h
      rw [← h]
      exact ⟨rfl, rfl, rfl⟩

theorem verifyAndAllocate_size (fb : VCMFrameBuffer) (m : Nat)
    (fb' : VCMFrameBuffer) (hm : fb.size ≤ m)
    (h : VerifyAndAllocate fb m true = some fb') : fb'.size = m := by
  unfold VerifyAndAllocate at h
  rw [if_neg (by simp : ¬(true = false))] at h
  by_cases h2 : fb.size < m
  · rw [if_pos h2, Option.some.injEq] at h
    rw [← h]
  · rw [if_neg h2, Option.some.injEq] at h
    rw [← h]
    omega

theorem insertGrow_some (cfg : VCMConfig) (fb : VCMFrameBuffer) (p : VCMPacket)
    (a : Bool) (fb3 : VCMFrameBuffer) (h : insertGrow cfg fb p a = some fb3) :
    fb3.state = fb.state ∧ fb3.length = fb.length ∧ fb3.buffer = fb.buffer := by
  unfold insertGrow at h
  dsimp only at h
  by_cases h1 : requiredSize cfg fb p ≥ fb.size
  · rw [if_pos h1] at h
    by_cases h2 :
        growthNewSize cfg fb (requiredSize cfg fb p) > cfg.kMaxJBFrameSizeBytes
    · rw [if_pos h2] at h
      exact absurd h (by simp)
    · rw [if_neg h2] at h
      exact verifyAndAllocate_some fb _ a fb3 h
  · rw [if_neg h1, Option.some.injEq] at h
    rw [← h]
    exact ⟨rfl, rfl, rfl⟩

theorem insertSessionTail_size (fb : VCMFrameBuffer) (t : Int)
    (o : VCMSessionInfoOracle) : (insertSessionTail fb t o).2.size = fb.size := by
  unfold insertSessionTail
  dsimp only
  split_ifs <;> rfl

theorem insertSessionTail_complete (fb : VCMFrameBuffer) (t : Int)
    (o : VCMSessionInfoOracle) (h1 : o.insertResult ≠ -1) (h2 : o.insertResult ≠ -2)
    (hc : o.isSessionComplete = true) :
    (insertSessionTail fb t o).1 = kCompleteSession ∧
      (insertSessionTail fb t o).2.state = fb.state := by
  unfold insertSessionTail
  rw [if_neg h1, if_neg h2, if_pos hc]
  exact ⟨rfl, rfl⟩

theorem insertSessionTail_regress (fb : VCMFrameBuffer) (t : Int)
    (o : VCMSessionInfoOracle) (h1 : o.insertResult ≠ -1) (h2 : o.insertResult ≠ -2)
    (hc : o.isSessionComplete = false) (hs : fb.state = kStateComplete) :
    (insertSessionTail fb t o).1 = kIncomplete ∧
      (insertSessionTail fb t o).2.state = kStateIncomplete := by
  simp only [insertSessionTail, if_neg h1, if_neg h2, hc]
  simp [hs]

theorem requiredSize_latch (cfg : VCMConfig) (fb : VCMFrameBuffer) (p : VCMPacket)
    (o : VCMSessionInfoOracle) :
    requiredSize cfg (insertLatch fb p o) p = requiredSize cfg fb p := by
  unfold requiredSize
  rw [insertLatch_length]

theorem growthNewSize_latch (cfg : VCMConfig) (fb : VCMFrameBuffer) (p : VCMPacket)
    (o : VCMSessionInfoOracle) (r : Nat) :
    growthNewSize cfg (insertLatch fb p o) r = growthNewSize cfg fb r := by
  unfold growthNewSize
  rw [insertLatch_size]

theorem growthNewSize_eq (cfg : VCMConfig) (fb : VCMFrameBuffer) (r : Nat)
    (h : fb.size + growthIncrements cfg r * cfg.kBufferIncStepSizeBytes < 2 ^ 32) :
    growthNewSize cfg fb r =
      fb.size + growthIncrements cfg r * cfg.kBufferIncStepSizeBytes := by
  unfold growthNewSize
  rw [mod32_eq_of_lt (Nat.lt_of_le_of_lt (Nat.le_add_left _ _) h), mod32_eq_of_lt h]

theorem verifyAndAllocate_true_ne_none (fb : VCMFrameBuffer) (m : Nat) :
    VerifyAndAllocate fb m true ≠ none := by
  unfold VerifyAndAllocate
  rw [if_neg (by simp : ¬(true = false))]
  by_cases h2 : fb.size < m
  · rw [if_pos h2]
    simp
  · rw [if_neg h2]
    simp

/-- The shape of `InsertPacket` once the five guards of lines 86-114 have
passed: latch, growth step, session tail. -/
theorem insertPacket_main (cfg : VCMConfig) (fb : VCMFrameBuffer) (p : VCMPacket)
    (t : Int) (o : VCMSessionInfoOracle)
    (h1 : fb.state ≠ kStateDecoding) (h2 : fb.state ≠ kStateFree)
    (h3 : ¬(fb.timeStamp ≠ 0 ∧ fb.timeStamp ≠ p.timestamp))
    (h4 : ¬(fb.size + p.sizeBytes + startCodeLen cfg p > cfg.kMaxJBFrameSizeBytes))
    (h5 : ¬(p.dataPtr = none ∧ p.sizeBytes > 0)) :
    InsertPacket cfg fb p t o =
      match insertGrow cfg (insertLatch fb p o) p o.allocOk with
      | none => (kSizeError, insertLatch fb p o)
      | some fb3 => insertSessionTail fb3 t o := by
  unfold InsertPacket
  rw [if_neg h1, if_neg h2, if_neg h3, if_neg h4, if_neg h5]

/-- When the growth step of lines 138-156 is taken and the requested new size
exceeds the hard maximum, `InsertPacket` exits with `kSizeError`, carrying
only the latching side effects. -/
theorem insertPacket_grow_fail (cfg : VCMConfig) (fb : VCMFrameBuffer)
    (p : VCMPacket) (t : Int) (o : VCMSessionInfoOracle)
    (h1 : fb.state ≠ kStateDecoding) (h2 : fb.state ≠ kStateFree)
    (h3 : ¬(fb.timeStamp ≠ 0 ∧ fb.timeStamp ≠ p.timestamp))
    (h4 : ¬(fb.size + p.sizeBytes + startCodeLen cfg p > cfg.kMaxJBFrameSizeBytes))
    (h5 : ¬(p.dataPtr = none ∧ p.sizeBytes > 0))
    (hge : requiredSize cfg fb p ≥ fb.size)
    (hnw2 : fb.size + growthIncrements cfg (requiredSize cfg fb p) *
        cfg.kBufferIncStepSizeBytes < 2 ^ 32)
    (hbig : fb.size + growthIncrements cfg (requiredSize cfg fb p) *
        cfg.kBufferIncStepSizeBytes > cfg.kMaxJBFrameSizeBytes) :
    InsertPacket cfg fb p t o = (kSizeError, insertLatch fb p o) := by
  have hnone : insertGrow cfg (insertLatch fb p o) p o.allocOk = none := by
    unfold insertGrow
    dsimp only
    rw [requiredSize_latch, insertLatch_size, if_pos hge, growthNewSize_latch,
      growthNewSize_eq cfg fb _ hnw2, if_pos hbig]
  rw [insertPacket_main cfg fb p t o h1 h2 h3 h4 h5, hnone]

/-- When the growth step of lines 138-156 is taken, the requested new size is
within the hard maximum and allocation succeeds, the entity's capacity after
the call is exactly `currentCapacity + increments * stepSize`. -/
theorem insertPacket_grow_ok (cfg : VCMConfig) (fb : VCMFrameBuffer)
    (p : VCMPacket) (t : Int) (o : VCMSessionInfoOracle)
    (h1 : fb.state ≠ kStateDecoding) (h2 : fb.state ≠ kStateFree)
    (h3 : ¬(fb.timeStamp ≠ 0 ∧ fb.timeStamp ≠ p.timestamp))
    (h4 : ¬(fb.size + p.sizeBytes + startCodeLen cfg p > cfg.kMaxJBFrameSizeBytes))
    (h5 : ¬(p.dataPtr = none ∧ p.sizeBytes > 0))
    (hge : requiredSize cfg fb p ≥ fb.size)
    (hnw2 : fb.size + growthIncrements cfg (requiredSize cfg fb p) *
        cfg.kBufferIncStepSizeBytes < 2 ^ 32)
    (hle : fb.size + growthIncrements cfg (requiredSize cfg fb p) *
        cfg.kBufferIncStepSizeBytes ≤ cfg.kMaxJBFrameSizeBytes)
    (hok : o.allocOk = true) :
    (InsertPacket cfg fb p t o).2.size =
      fb.size + growthIncrements cfg (requiredSize cfg fb p) *
        cfg.kBufferIncStepSizeBytes := by
  have hsome : insertGrow cfg (insertLatch fb p o) p o.allocOk =
      VerifyAndAllocate (insertLatch fb p o)
        (fb.size + growthIncrements cfg (requiredSize cfg fb p) *
          cfg.kBufferIncStepSizeBytes) o.allocOk := by
    unfold insertGrow
    dsimp only
    rw [requiredSize_latch, insertLatch_size, if_pos hge, growthNewSize_latch,
      growthNewSize_eq cfg fb _ hnw2, if_neg (Nat.not_lt.mpr hle)]
  rw [hok] at hsome
  cases hv : VerifyAndAllocate (insertLatch fb p o)
      (fb.size + growthIncrements cfg (requiredSize cfg fb p) *
        cfg.kBufferIncStepSizeBytes) true with
  | none => exact absurd hv (verifyAndAllocate_true_ne_none _ _)
  | some fb3 =>
      rw [insertPacket_main cfg fb p t o h1 h2 h3 h4 h5, hok, hsome, hv]
      rw [insertSessionTail_size]
      exact verifyAndAllocate_size _ _ _
        (by rw [insertLatch_size]; exact Nat.le_add_right _ _) hv

theorem insertSessionTail_result_ne_ts (fb : VCMFrameBuffer) (t : Int)
    (o : VCMSessionInfoOracle) :
    (insertSessionTail fb t o).1 ≠ kTimeStampError := by
  unfold insertSessionTail
  dsimp only
  split_ifs <;> simp

/-- A baseline packet for concrete evaluations. -/
def pkt0 : VCMPacket :=
  { seqNum := 0
    timestamp := 0
    payloadType := 0
    frameType := kVideoFrameKey
    sizeBytes := 0
    dataPtr := some []
    insertStartCode := false
    codec := 0 }

/-! ### The claims -/

/-- C5: in a state other than `Decoding` and `Free`, a packet whose timestamp
differs from the already-latched (non-zero) frame timestamp is rejected with
`kTimeStampError` and the entity — in particular the occupied buffer length —
is left unchanged (frame_buffer.cc lines 98-102). -/
theorem C5_timestamp_mismatch (cfg : VCMConfig) (fb : VCMFrameBuffer)
    (p : VCMPacket) (t : Int) (o : VCMSessionInfoOracle)
    (h1 : fb.state ≠ kStateDecoding) (h2 : fb.state ≠ kStateFree)
    (h3 : fb.timeStamp ≠ 0) (h4 : fb.timeStamp ≠ p.timestamp) :
    InsertPacket cfg fb p t o = (kTimeStampError, fb) := by
  unfold InsertPacket
  rw [if_neg h1, if_neg h2, if_pos (And.intro h3 h4)]

/-- C5 witness: a concrete mismatching insertion into an incomplete frame
latched at timestamp 10. -/
theorem C5_witness :
    InsertPacket cfg0 { frame0 with state := kStateIncomplete, timeStamp := 10 }
        { pkt0 with timestamp := 11 } 0 oracle0 =
      (kTimeStampError, { frame0 with state := kStateIncomplete, timeStamp := 10 }) :=
  C5_timestamp_mismatch cfg0 _ _ 0 oracle0 (by decide) (by decide) (by decide)
    (by decide)

/-- C6: under the documented invariant `length ≤ capacity`, a packet whose
projected total size (occupied length + packet size + optional start-code
length) exceeds the hard maximum is rejected with `kSizeError` before any
side effect: the entity is returned unchanged (frame_buffer.cc lines
104-110). -/
theorem C6_size_guard (cfg : VCMConfig) (fb : VCMFrameBuffer) (p : VCMPacket)
    (t : Int) (o : VCMSessionInfoOracle)
    (h1 : fb.state ≠ kStateDecoding) (h2 : fb.state ≠ kStateFree)
    (h3 : ¬(fb.timeStamp ≠ 0 ∧ fb.timeStamp ≠ p.timestamp))
    (hinv : fb.length ≤ fb.size)
    (hbig : fb.length + p.sizeBytes + startCodeLen cfg p > cfg.kMaxJBFrameSizeBytes) :
    InsertPacket cfg fb p t o = (kSizeError, fb) := by
  unfold InsertPacket
  rw [if_neg h1, if_neg h2, if_neg h3,
    if_pos (show fb.size + p.sizeBytes + startCodeLen cfg p >
      cfg.kMaxJBFrameSizeBytes by omega)]

/-- C6 witness: a 4000001-byte packet against the 4000000-byte ceiling. -/
theorem C6_witness :
    InsertPacket cfg0 { frame0 with state := kStateIncomplete }
        { pkt0 with sizeBytes := 4000001 } 0 oracle0 =
      (kSizeError, { frame0 with state := kStateIncomplete }) :=
  C6_size_guard cfg0 _ _ 0 oracle0 (by decide) (by decide) (by decide) (by decide)
    (by decide)

/-- C9: `Reset` from any state leaves the entity `Free` with length 0,
timestamp 0, nack count 0 and the arrival-time sentinel `-1`, and applying
`Reset` again changes nothing (frame_buffer.cc lines 243-255). -/
theorem C9_reset (fb : VCMFrameBuffer) :
    (Reset fb).state = kStateFree ∧ (Reset fb).length = 0 ∧
      (Reset fb).timeStamp = 0 ∧ (Reset fb).nackCount = 0 ∧
      (Reset fb).latestPacketTimeMs = -1 ∧ Reset (Reset fb) = Reset fb :=
  ⟨rfl, rfl, rfl, rfl, rfl, rfl⟩

/-- C10: when the latched timestamp is 0 — the same value that means "no
timestamp latched" — the timestamp guard of line 99 cannot fire, so
`InsertPacket` never returns `kTimeStampError`, whatever the packet's
timestamp. -/
theorem C10_zero_timestamp (cfg : VCMConfig) (fb : VCMFrameBuffer)
    (p : VCMPacket) (t : Int) (o : VCMSessionInfoOracle)
    (hts : fb.timeStamp = 0) :
    (InsertPacket cfg fb p t o).1 ≠ kTimeStampError := by
  unfold InsertPacket
  by_cases h1 : fb.state = kStateDecoding
  · rw [if_pos h1]
    simp
  · rw [if_neg h1]
    by_cases h2 : fb.state = kStateFree
    · rw [if_pos h2]
      simp
    · rw [if_neg h2]
      rw [if_neg (by simp [hts] : ¬(fb.timeStamp ≠ 0 ∧ fb.timeStamp ≠ p.timestamp))]
      by_cases h4 : fb.size + p.sizeBytes + startCodeLen cfg p > cfg.kMaxJBFrameSizeBytes
      · rw [if_pos h4]
        simp
      · rw [if_neg h4]
        by_cases h5 : p.dataPtr = none ∧ p.sizeBytes > 0
        · rw [if_pos h5]
          simp
        · rw [if_neg h5]
          dsimp only
          cases hg : insertGrow cfg (insertLatch fb p o) p o.allocOk with
          | none => simp
          | some fb3 => exact insertSessionTail_result_ne_ts fb3 t o

/-- C10 witness: a frame whose timestamp field is 0 accepts a packet stamped
1234 without a timestamp error. -/
theorem C10_witness :
    (InsertPacket cfg0 { frame0 with state := kStateEmpty }
        { pkt0 with timestamp := 1234 } 0 oracle0).1 ≠ kTimeStampError :=
  C10_zero_timestamp cfg0 _ _ 0 oracle0 (by decide)

/-- C7 counterexample: requesting `kStateIncomplete` on a `kStateComplete`
frame does fire the debug assertion, but with assertions compiled out the
request is NOT a no-op — the switch arm falls through to the
`_state = state` assignment of line 329 and the stored state changes. -/
theorem C7_counterexample :
    setStateAssertOk kStateComplete kStateIncomplete = false ∧
      (SetState { frame0 with state := kStateComplete } kStateIncomplete
          oracle0).state ≠ kStateComplete := by
  decide

/-- C7 (amended): an `kStateIncomplete` request fires the debug assertion
exactly when the current state is outside {`kStateEmpty`, `kStateDecoding`,
`kStateIncomplete`}, and in a release build the request always ends with the
stored state set to `kStateIncomplete` — the transition is performed, not
skipped (frame_buffer.cc lines 285-291 and 329). -/
theorem C7_amended (fb : VCMFrameBuffer) (o : VCMSessionInfoOracle) :
    (SetState fb kStateIncomplete o).state = kStateIncomplete ∧
      (setStateAssertOk fb.state kStateIncomplete = false ↔
        (fb.state ≠ kStateEmpty ∧ fb.state ≠ kStateDecoding ∧
          fb.state ≠ kStateIncomplete)) := by
  constructor
  · unfold SetState
    by_cases h : fb.state = kStateIncomplete
    · rw [if_pos h]
      exact h
    · rw [if_neg h]
  · cases hfb : fb.state <;> decide

/-- C8 counterexample: forcing `kStateDecodable` on a `kStateIncomplete`
frame whose packet-list delegate reports the session complete yields
`kStateDecodable`, not `kStateComplete` — `SetState` never consults the
delegate's completeness (frame_buffer.cc lines 314-322). -/
theorem C8_counterexample :
    (SetState { frame0 with state := kStateIncomplete } kStateDecodable
        { oracle0 with isSessionComplete := true }).state = kStateDecodable ∧
      (SetState { frame0 with state := kStateIncomplete } kStateDecodable
          { oracle0 with isSessionComplete := true }).state ≠ kStateComplete := by
  decide

/-- C8 (amended): a `kStateDecodable` request leaves a `kStateComplete` frame
untouched and moves every other frame — an `kStateIncomplete` one included,
whatever the delegate's completeness answer — to `kStateDecodable`
(frame_buffer.cc lines 314-322). -/
theorem C8_amended (fb : VCMFrameBuffer) (o : VCMSessionInfoOracle) :
    (SetState fb kStateDecodable o).state =
      if fb.state = kStateComplete then kStateComplete else kStateDecodable := by
  unfold SetState
  by_cases h0 : fb.state = kStateDecodable
  · rw [if_pos h0, h0]
    simp
  · rw [if_neg h0]
    by_cases h1 : fb.state = kStateComplete
    · simp only [if_pos h1]
      exact h1
    · simp only [if_neg h1]

/-- C1 counterexample: a first media packet inserted into a `kStateEmpty`
frame whose delegate then reports the session complete returns
`kCompleteSession` — but the lifecycle state field is NOT unchanged: the
first-media-packet latch of lines 125-136 has already moved it from
`kStateEmpty` to `kStateIncomplete`. -/
theorem C1_counterexample :
    (InsertPacket cfg0 { frame0 with state := kStateEmpty }
        { pkt0 with
          seqNum := 7
          timestamp := 1234
          payloadType := 5
          sizeBytes := 10
          dataPtr := some [1, 2, 3, 4, 5, 6, 7, 8, 9, 10] } 99
        { oracle0 with
          insertResult := 10
          bufferAfterInsert := [1, 2, 3, 4, 5, 6, 7, 8, 9, 10]
          isSessionComplete := true }).1 = kCompleteSession ∧
      (InsertPacket cfg0 { frame0 with state := kStateEmpty }
          { pkt0 with
            seqNum := 7
            timestamp := 1234
            payloadType := 5
            sizeBytes := 10
            dataPtr := some [1, 2, 3, 4, 5, 6, 7, 8, 9, 10] } 99
          { oracle0 with
            insertResult := 10
            bufferAfterInsert := [1, 2, 3, 4, 5, 6, 7, 8, 9, 10]
            isSessionComplete := true }).2.state ≠
        ({ frame0 with state := kStateEmpty } : VCMFrameBuffer).state := by
  decide

/-- C1 (amended): for every accepted packet, if the delegate reports the
session complete the call returns `kCompleteSession` and never sets the state
to `kStateComplete` itself — the state is unchanged except that a first media
packet has already moved an `kStateEmpty` frame to `kStateIncomplete`; if the
delegate reports the session incomplete and the state was `kStateComplete`,
the state retreats to `kStateIncomplete` and the call returns `kIncomplete`
(frame_buffer.cc lines 171-185). -/
theorem C1_amended (cfg : VCMConfig) (fb : VCMFrameBuffer) (p : VCMPacket)
    (t : Int) (o : VCMSessionInfoOracle)
    (h1 : fb.state ≠ kStateDecoding) (h2 : fb.state ≠ kStateFree)
    (h3 : ¬(fb.timeStamp ≠ 0 ∧ fb.timeStamp ≠ p.timestamp))
    (h4 : ¬(fb.size + p.sizeBytes + startCodeLen cfg p > cfg.kMaxJBFrameSizeBytes))
    (h5 : ¬(p.dataPtr = none ∧ p.sizeBytes > 0))
    (hgrow : insertGrow cfg (insertLatch fb p o) p o.allocOk ≠ none)
    (hi1 : o.insertResult ≠ -1) (hi2 : o.insertResult ≠ -2) :
    (o.isSessionComplete = true →
      (InsertPacket cfg fb p t o).1 = kCompleteSession ∧
        ((InsertPacket cfg fb p t o).2.state = fb.state ∨
          (fb.state = kStateEmpty ∧
            (InsertPacket cfg fb p t o).2.state = kStateIncomplete))) ∧
    (o.isSessionComplete = false → fb.state = kStateComplete →
      (InsertPacket cfg fb p t o).1 = kIncomplete ∧
        (InsertPacket cfg fb p t o).2.state = kStateIncomplete) := by
  have hmain := insertPacket_main cfg fb p t o h1 h2 h3 h4 h5
  cases hg : insertGrow cfg (insertLatch fb p o) p o.allocOk with
  | none => exact absurd hg hgrow
  | some fb3 =>
      rw [hg] at hmain
      obtain ⟨hst3, -, -⟩ :=
        insertGrow_some cfg (insertLatch fb p o) p o.allocOk fb3 hg
      constructor
      · intro hc
        obtain ⟨hr, hsame⟩ := insertSessionTail_complete fb3 t o hi1 hi2 hc
        rw [hmain]
        refine ⟨hr, ?_⟩
        rw [hsame, hst3]
        exact insertLatch_state fb p o
      · intro hc hcomp
        have hlatch : (insertLatch fb p o).state = fb.state := by
          rcases insertLatch_state fb p o with h | ⟨he, -⟩
          · exact h
          · rw [he] at hcomp
            exact absurd hcomp (by decide)
        obtain ⟨hr, hs'⟩ := insertSessionTail_regress fb3 t o hi1 hi2 hc
          (by rw [hst3, hlatch, hcomp])
        rw [hmain]
        exact ⟨hr, hs'⟩

/-- C1 witness: the amended statement at the complete-regress pair of
concrete inputs — here a formerly complete frame that regresses. -/
theorem C1_witness :
    (({ oracle0 with insertResult := 3 } : VCMSessionInfoOracle).isSessionComplete
        = true →
      (InsertPacket cfg0 { frame0 with state := kStateComplete, size := 30000 }
          { pkt0 with sizeBytes := 3 } 7
          { oracle0 with insertResult := 3 }).1 = kCompleteSession ∧
        ((InsertPacket cfg0 { frame0 with state := kStateComplete, size := 30000 }
            { pkt0 with sizeBytes := 3 } 7
            { oracle0 with insertResult := 3 }).2.state =
          ({ frame0 with state := kStateComplete, size := 30000 } :
            VCMFrameBuffer).state ∨
          (({ frame0 with state := kStateComplete, size := 30000 } :
            VCMFrameBuffer).state = kStateEmpty ∧
            (InsertPacket cfg0 { frame0 with state := kStateComplete, size := 30000 }
              { pkt0 with sizeBytes := 3 } 7
              { oracle0 with insertResult := 3 }).2.state = kStateIncomplete))) ∧
    (({ oracle0 with insertResult := 3 } : VCMSessionInfoOracle).isSessionComplete
        = false →
      ({ frame0 with state := kStateComplete, size := 30000 } :
          VCMFrameBuffer).state = kStateComplete →
      (InsertPacket cfg0 { frame0 with state := kStateComplete, size := 30000 }
          { pkt0 with sizeBytes := 3 } 7
          { oracle0 with insertResult := 3 }).1 = kIncomplete ∧
        (InsertPacket cfg0 { frame0 with state := kStateComplete, size := 30000 }
            { pkt0 with sizeBytes := 3 } 7
            { oracle0 with insertResult := 3 }).2.state = kStateIncomplete) :=
  C1_amended cfg0 _ _ 7 _ (by decide) (by decide) (by decide) (by decide)
    (by decide) (by decide) (by decide) (by decide)

theorem verifyAndAllocate_false (fb : VCMFrameBuffer) (m : Nat) :
    VerifyAndAllocate fb m false = none := by
  unfold VerifyAndAllocate
  rw [if_pos rfl]

/-- A stored frame of 4000001 payload bytes, used against `ExtractFromStorage`. -/
def storedFrame1 : EncodedVideoData :=
  { frameType := 1
    timeStamp := 5
    payloadType := 2
    encodedWidth := 0
    encodedHeight := 0
    missingFrame := false
    completeFrame := true
    renderTimeMs := 0
    codec := 1
    payloadSize := 4000001
    payloadData := [] }

/-- C2 counterexample: `ExtractFromStorage` grows the buffer to the exact
stored payload size with no step rounding and no maximum check — with the
deployment constants (step 30000, ceiling 4000000) the resulting capacity
4000001 exceeds the ceiling, is no multiple of the step, and the call still
reports success instead of a size error (frame_buffer.cc lines 341-360). -/
theorem C2_counterexample :
    (ExtractFromStorage frame0 storedFrame1 true).1 = VCM_OK ∧
      (ExtractFromStorage frame0 storedFrame1 true).2.size >
        cfg0.kMaxJBFrameSizeBytes ∧
      (ExtractFromStorage frame0 storedFrame1 true).2.size %
        cfg0.kBufferIncStepSizeBytes ≠ 0 := by
  decide

/-- C2 (amended): growth performed by `InsertPacket` (lines 138-156) keeps
the capacity a multiple of the step whenever it already was one and never
lets it exceed the hard maximum: a growth that would exceed the maximum
returns `kSizeError` with buffer bytes, occupied length and capacity
untouched; a growth within the maximum yields capacity
`currentCapacity + increments * stepSize`.  (`ExtractFromStorage` gives no
such guarantees — see the counterexample.) -/
theorem C2_amended (cfg : VCMConfig) (fb : VCMFrameBuffer) (p : VCMPacket)
    (t : Int) (o : VCMSessionInfoOracle)
    (h1 : fb.state ≠ kStateDecoding) (h2 : fb.state ≠ kStateFree)
    (h3 : ¬(fb.timeStamp ≠ 0 ∧ fb.timeStamp ≠ p.timestamp))
    (h4 : ¬(fb.size + p.sizeBytes + startCodeLen cfg p > cfg.kMaxJBFrameSizeBytes))
    (h5 : ¬(p.dataPtr = none ∧ p.sizeBytes > 0))
    (hge : requiredSize cfg fb p ≥ fb.size)
    (hnw2 : fb.size + growthIncrements cfg (requiredSize cfg fb p) *
        cfg.kBufferIncStepSizeBytes < 2 ^ 32)
    (hmul : fb.size % cfg.kBufferIncStepSizeBytes = 0) :
    (fb.size + growthIncrements cfg (requiredSize cfg fb p) *
        cfg.kBufferIncStepSizeBytes > cfg.kMaxJBFrameSizeBytes →
      (InsertPacket cfg fb p t o).1 = kSizeError ∧
        (InsertPacket cfg fb p t o).2.buffer = fb.buffer ∧
        (InsertPacket cfg fb p t o).2.length = fb.length ∧
        (InsertPacket cfg fb p t o).2.size = fb.size) ∧
    (fb.size + growthIncrements cfg (requiredSize cfg fb p) *
        cfg.kBufferIncStepSizeBytes ≤ cfg.kMaxJBFrameSizeBytes →
      o.allocOk = true →
      (InsertPacket cfg fb p t o).2.size ≤ cfg.kMaxJBFrameSizeBytes ∧
        (InsertPacket cfg fb p t o).2.size % cfg.kBufferIncStepSizeBytes = 0) := by
  constructor
  · intro hbig
    rw [insertPacket_grow_fail cfg fb p t o h1 h2 h3 h4 h5 hge hnw2 hbig]
    exact ⟨rfl, insertLatch_buffer fb p o, insertLatch_length fb p o,
      insertLatch_size fb p o⟩
  · intro hle hok
    rw [insertPacket_grow_ok cfg fb p t o h1 h2 h3 h4 h5 hge hnw2 hle hok]
    constructor
    · exact hle
    · rw [Nat.add_mul_mod_self_right]
      exact hmul

/-- An active incomplete frame with no bytes yet, for concrete growth runs. -/
def fbIncomplete : VCMFrameBuffer := { frame0 with state := kStateIncomplete }

/-- A 10-byte media packet. -/
def pktMedia10 : VCMPacket := { pkt0 with sizeBytes := 10 }

/-- A 20-byte media packet. -/
def pktMedia20 : VCMPacket := { pkt0 with sizeBytes := 20 }

/-- C2 witness: the amended statement at a concrete in-bounds growth (10
bytes against capacity 0, step 30000, ceiling 4000000). -/
theorem C2_witness :
    (fbIncomplete.size +
        growthIncrements cfg0 (requiredSize cfg0 fbIncomplete pktMedia10) *
          cfg0.kBufferIncStepSizeBytes > cfg0.kMaxJBFrameSizeBytes →
      (InsertPacket cfg0 fbIncomplete pktMedia10 0 oracle0).1 = kSizeError ∧
        (InsertPacket cfg0 fbIncomplete pktMedia10 0 oracle0).2.buffer =
          fbIncomplete.buffer ∧
        (InsertPacket cfg0 fbIncomplete pktMedia10 0 oracle0).2.length =
          fbIncomplete.length ∧
        (InsertPacket cfg0 fbIncomplete pktMedia10 0 oracle0).2.size =
          fbIncomplete.size) ∧
    (fbIncomplete.size +
        growthIncrements cfg0 (requiredSize cfg0 fbIncomplete pktMedia10) *
          cfg0.kBufferIncStepSizeBytes ≤ cfg0.kMaxJBFrameSizeBytes →
      oracle0.allocOk = true →
      (InsertPacket cfg0 fbIncomplete pktMedia10 0 oracle0).2.size ≤
          cfg0.kMaxJBFrameSizeBytes ∧
        (InsertPacket cfg0 fbIncomplete pktMedia10 0 oracle0).2.size %
          cfg0.kBufferIncStepSizeBytes = 0) :=
  C2_amended cfg0 fbIncomplete pktMedia10 0 oracle0 (by decide) (by decide)
    (by decide) (by decide) (by decide) (by decide) (by decide) (by decide)

/-- C3: on the growth path (projected required size at least the current
capacity), the computed increment count is exactly the ceiling division of
the required size by the step size, the requested capacity is
`currentCapacity + increments * stepSize`, a request beyond the hard maximum
returns `kSizeError`, and an in-bounds request makes that exact capacity the
entity's new capacity (frame_buffer.cc lines 138-156). -/
theorem C3_growth (cfg : VCMConfig) (fb : VCMFrameBuffer) (p : VCMPacket)
    (t : Int) (o : VCMSessionInfoOracle)
    (hstep : 0 < cfg.kBufferIncStepSizeBytes)
    (h1 : fb.state ≠ kStateDecoding) (h2 : fb.state ≠ kStateFree)
    (h3 : ¬(fb.timeStamp ≠ 0 ∧ fb.timeStamp ≠ p.timestamp))
    (h4 : ¬(fb.size + p.sizeBytes + startCodeLen cfg p > cfg.kMaxJBFrameSizeBytes))
    (h5 : ¬(p.dataPtr = none ∧ p.sizeBytes > 0))
    (hnw1 : fb.length + p.sizeBytes + startCodeLen cfg p < 2 ^ 32)
    (hge : requiredSize cfg fb p ≥ fb.size)
    (hnw2 : fb.size + growthIncrements cfg (requiredSize cfg fb p) *
        cfg.kBufferIncStepSizeBytes < 2 ^ 32) :
    requiredSize cfg fb p = fb.length + p.sizeBytes + startCodeLen cfg p ∧
    growthIncrements cfg (requiredSize cfg fb p) =
      (requiredSize cfg fb p + cfg.kBufferIncStepSizeBytes - 1) /
        cfg.kBufferIncStepSizeBytes ∧
    (fb.size + growthIncrements cfg (requiredSize cfg fb p) *
        cfg.kBufferIncStepSizeBytes > cfg.kMaxJBFrameSizeBytes →
      (InsertPacket cfg fb p t o).1 = kSizeError) ∧
    (fb.size + growthIncrements cfg (requiredSize cfg fb p) *
        cfg.kBufferIncStepSizeBytes ≤ cfg.kMaxJBFrameSizeBytes →
      o.allocOk = true →
      (InsertPacket cfg fb p t o).2.size =
        fb.size + growthIncrements cfg (requiredSize cfg fb p) *
          cfg.kBufferIncStepSizeBytes) := by
  refine ⟨?_, ?_, ?_, ?_⟩
  · unfold requiredSize
    exact mod32_eq_of_lt hnw1
  · unfold growthIncrements
    exact div_ceil_eq _ _ hstep
  · intro hbig
    rw [insertPacket_grow_fail cfg fb p t o h1 h2 h3 h4 h5 hge hnw2 hbig]
  · intro hle hok
    exact insertPacket_grow_ok cfg fb p t o h1 h2 h3 h4 h5 hge hnw2 hle hok

/-- C3 witness: the growth arithmetic at a concrete 20-byte insertion. -/
theorem C3_witness :
    requiredSize cfg0 fbIncomplete pktMedia20 =
      fbIncomplete.length + pktMedia20.sizeBytes + startCodeLen cfg0 pktMedia20 ∧
    growthIncrements cfg0 (requiredSize cfg0 fbIncomplete pktMedia20) =
      (requiredSize cfg0 fbIncomplete pktMedia20 + cfg0.kBufferIncStepSizeBytes - 1) /
        cfg0.kBufferIncStepSizeBytes ∧
    (fbIncomplete.size +
        growthIncrements cfg0 (requiredSize cfg0 fbIncomplete pktMedia20) *
          cfg0.kBufferIncStepSizeBytes > cfg0.kMaxJBFrameSizeBytes →
      (InsertPacket cfg0 fbIncomplete pktMedia20 0 oracle0).1 = kSizeError) ∧
    (fbIncomplete.size +
        growthIncrements cfg0 (requiredSize cfg0 fbIncomplete pktMedia20) *
          cfg0.kBufferIncStepSizeBytes ≤ cfg0.kMaxJBFrameSizeBytes →
      oracle0.allocOk = true →
      (InsertPacket cfg0 fbIncomplete pktMedia20 0 oracle0).2.size =
        fbIncomplete.size +
          growthIncrements cfg0 (requiredSize cfg0 fbIncomplete pktMedia20) *
            cfg0.kBufferIncStepSizeBytes) :=
  C3_growth cfg0 fbIncomplete pktMedia20 0 oracle0 (by decide) (by decide)
    (by decide) (by decide) (by decide) (by decide) (by decide) (by decide)
    (by decide)

/-- A small test configuration (ceiling 95, step 10, start code 4) under
which a 92-byte packet passes the early size guard yet fails the growth
step, since 10 increments give new size 100 > 95. -/
def cfgSmall : VCMConfig :=
  { kMaxJBFrameSizeBytes := 95
    kBufferIncStepSizeBytes := 10
    kH264StartCodeLengthBytes := 4 }

/-- The 92-byte first media packet used against `cfgSmall`. -/
def pktGrowFail : VCMPacket :=
  { pkt0 with
    timestamp := 77
    payloadType := 5
    sizeBytes := 92
    codec := 3 }

/-- C4 counterexample: when `InsertPacket` fails at the buffer-growth step
with `kSizeError`, the entity is NOT left in its pre-call state: the latching
side effects of lines 115-136 have already fired — here the payload type,
the timestamp and the lifecycle state all differ from their pre-call
values. -/
theorem C4_counterexample :
    (InsertPacket cfgSmall { frame0 with state := kStateEmpty } pktGrowFail 50
        oracle0).1 = kSizeError ∧
      (InsertPacket cfgSmall { frame0 with state := kStateEmpty } pktGrowFail 50
          oracle0).2.payloadType ≠
        ({ frame0 with state := kStateEmpty } : VCMFrameBuffer).payloadType ∧
      (InsertPacket cfgSmall { frame0 with state := kStateEmpty } pktGrowFail 50
          oracle0).2.timeStamp ≠
        ({ frame0 with state := kStateEmpty } : VCMFrameBuffer).timeStamp ∧
      (InsertPacket cfgSmall { frame0 with state := kStateEmpty } pktGrowFail 50
          oracle0).2.state ≠
        ({ frame0 with state := kStateEmpty } : VCMFrameBuffer).state := by
  decide

/-- C4 (amended): a failure at the buffer-growth step (requested size beyond
the maximum, or allocation failure) returns `kSizeError` and leaves the
buffer bytes, the occupied length and the capacity untouched, but the fields
latched earlier in the call (payload type; on a first packet also timestamp,
codec and the `kStateEmpty` → `kStateIncomplete` move) may already have
changed; an `ExtractFromStorage` allocation failure likewise preserves
buffer bytes and length while its metadata writes of lines 344-352 have
already happened. -/
theorem C4_amended (cfg : VCMConfig) (fb : VCMFrameBuffer) (p : VCMPacket)
    (t : Int) (o : VCMSessionInfoOracle)
    (h1 : fb.state ≠ kStateDecoding) (h2 : fb.state ≠ kStateFree)
    (h3 : ¬(fb.timeStamp ≠ 0 ∧ fb.timeStamp ≠ p.timestamp))
    (h4 : ¬(fb.size + p.sizeBytes + startCodeLen cfg p > cfg.kMaxJBFrameSizeBytes))
    (h5 : ¬(p.dataPtr = none ∧ p.sizeBytes > 0))
    (hfail : insertGrow cfg (insertLatch fb p o) p o.allocOk = none) :
    (InsertPacket cfg fb p t o).1 = kSizeError ∧
      (InsertPacket cfg fb p t o).2.buffer = fb.buffer ∧
      (InsertPacket cfg fb p t o).2.length = fb.length ∧
      (InsertPacket cfg fb p t o).2.size = fb.size ∧
      (∀ d : EncodedVideoData,
        (ExtractFromStorage fb d false).1 = VCM_MEMORY ∧
          (ExtractFromStorage fb d false).2.buffer = fb.buffer ∧
          (ExtractFromStorage fb d false).2.length = fb.length) := by
  have hmain := insertPacket_main cfg fb p t o h1 h2 h3 h4 h5
  rw [hfail] at hmain
  refine ⟨by rw [hmain], by rw [hmain]; exact insertLatch_buffer fb p o,
    by rw [hmain]; exact insertLatch_length fb p o,
    by rw [hmain]; exact insertLatch_size fb p o, ?_⟩
  intro d
  unfold ExtractFromStorage
  dsimp only
  rw [verifyAndAllocate_false]
  exact ⟨rfl, rfl, rfl⟩

/-- C4 witness: the amended statement at the concrete growth failure of the
small configuration. -/
theorem C4_witness :
    (InsertPacket cfgSmall { frame0 with state := kStateEmpty } pktGrowFail 50
        oracle0).1 = kSizeError ∧
      (InsertPacket cfgSmall { frame0 with state := kStateEmpty } pktGrowFail 50
          oracle0).2.buffer =
        ({ frame0 with state := kStateEmpty } : VCMFrameBuffer).buffer ∧
      (InsertPacket cfgSmall { frame0 with state := kStateEmpty } pktGrowFail 50
          oracle0).2.length =
        ({ frame0 with state := kStateEmpty } : VCMFrameBuffer).length ∧
      (InsertPacket cfgSmall { frame0 with state := kStateEmpty } pktGrowFail 50
          oracle0).2.size =
        ({ frame0 with state := kStateEmpty } : VCMFrameBuffer).size ∧
      (∀ d : EncodedVideoData,
        (ExtractFromStorage { frame0 with state := kStateEmpty } d false).1 =
            VCM_MEMORY ∧
          (ExtractFromStorage { frame0 with state := kStateEmpty } d false).2.buffer =
            ({ frame0 with state := kStateEmpty } : VCMFrameBuffer).buffer ∧
          (ExtractFromStorage { frame0 with state := kStateEmpty } d false).2.length =
            ({ frame0 with state := kStateEmpty } : VCMFrameBuffer).length) :=
  C4_amended cfgSmall { frame0 with state := kStateEmpty } pktGrowFail 50 oracle0
    (by decide) (by decide) (by decide) (by decide) (by decide) (by decide)
